import Mathlib

/-!
Shallow embedding of the ZohoSync synchronization core (Go), covering:

* the conflict handler (`internal/sync/conflict_handler.go`),
* the sync-operation planner (`internal/sync/enhanced_engine.go`),
* the retry classifier and backoff machinery (`internal/sync/sync_test.go`,
  which carries the `SyncError`/`RetryConfig`/`ErrorRecovery` implementation),
* the token-bucket rate limiter (`internal/sync/rate_limiter.go`),
* the pending-file query of the database layer (`Database.GetPendingFiles`).

Go `time.Time` values are modelled as integer timestamps, `time.Duration`
values and `float64` delay arithmetic as rationals, `int64` sizes as
integers, and nil-able pointers as `Option`.
-/

namespace ZohoSync

/-- Operation kinds from `enhanced_engine.go` (`OperationType`, iota order:
upload, download, delete, skip, conflict). -/
inductive OperationType where
  | upload
  | download
  | delete
  | skip
  | conflict
deriving DecidableEq, Repr

/-- In-memory file metadata from `enhanced_engine.go` (`FileMetadata`).
`ModTime` is an integer timestamp; `Size` an integer byte count. -/
structure FileMetadata where
  path : String
  size : ℤ
  modTime : ℤ
  checksum : String
  isDirectory : Bool
  localExists : Bool
  remoteExists : Bool
deriving DecidableEq, Repr

/-- A planned sync operation (`enhanced_engine.go` `SyncOperation`).  Fields a
Go composite literal leaves unset take Go zero values: empty string, `0`,
and nil (`none`). -/
structure SyncOperation where
  type : OperationType
  localPath : String
  remotePath : String
  fileSize : ℤ
  priority : ℤ
  metadata : Option FileMetadata
deriving DecidableEq, Repr

/-- The operation `SyncOperation{Type: OperationSkip}`: every other field is a
Go zero value. -/
def skipOp : SyncOperation :=
  { type := .skip, localPath := "", remotePath := "", fileSize := 0,
    priority := 0, metadata := none }

/-- Go `ConflictResolution` is a Go `int`; iota order in `enhanced_engine.go`:
Newest = 0, Largest = 1, Manual = 2, KeepBoth = 3.  It is modelled as ℤ so
that out-of-range values (expressible in Go) are representable. -/
def resolutionNewest : ℤ := 0

/-- Go `ResolutionLargest` constant (= 1). -/
def resolutionLargest : ℤ := 1

/-- Go `ResolutionManual` constant (= 2). -/
def resolutionManual : ℤ := 2

/-- Go `ResolutionKeepBoth` constant (= 3). -/
def resolutionKeepBoth : ℤ := 3

/-- Go `SyncStrategy` constants, iota order: Bidirectional = 0, UploadOnly = 1,
DownloadOnly = 2, Mirror = 3.  Modelled as ℤ like `ConflictResolution`. -/
def strategyBidirectional : ℤ := 0

/-- Go `StrategyUploadOnly` constant (= 1). -/
def strategyUploadOnly : ℤ := 1

/-- Go `StrategyDownloadOnly` constant (= 2). -/
def strategyDownloadOnly : ℤ := 2

/-- Go `StrategyMirror` constant (= 3). -/
def strategyMirror : ℤ := 3

/-- Go `ConflictHandler.resolveByNewest`: upload when the local file's `ModTime`
is strictly after the remote's (`local.ModTime.After(remote.ModTime)`),
download otherwise. -/
def resolveByNewest (path : String) (localFile remoteFile : FileMetadata) :
    SyncOperation :=
  if remoteFile.modTime < localFile.modTime then
    { type := .upload, localPath := path, remotePath := path,
      fileSize := localFile.size, priority := 0, metadata := some localFile }
  else
    { type := .download, localPath := path, remotePath := path,
      fileSize := remoteFile.size, priority := 0, metadata := some remoteFile }

/-- Go `ConflictHandler.resolveByLargest`: upload when `local.Size > remote.Size`,
download otherwise. -/
def resolveByLargest (path : String) (localFile remoteFile : FileMetadata) :
    SyncOperation :=
  if remoteFile.size < localFile.size then
    { type := .upload, localPath := path, remotePath := path,
      fileSize := localFile.size, priority := 0, metadata := some localFile }
  else
    { type := .download, localPath := path, remotePath := path,
      fileSize := remoteFile.size, priority := 0, metadata := some remoteFile }

/-- Characters of `l` strictly after the last occurrence of `c` (all of `l`
when `c` does not occur). -/
def afterLastChar (c : Char) (l : List Char) : List Char :=
  l.foldl (fun acc x => if x = c then [] else acc ++ [x]) []

/-- Go `filepath.Base` restricted to paths without trailing separators: the
last slash-separated element of the path. -/
def filepathBase (s : String) : String :=
  ⟨afterLastChar '/' s.toList⟩

/-- Splits a file name at its final dot, returning the pair
(name without extension, extension including the dot) that the Go code
computes via `filepath.Ext(filename)` and `filename[:len(filename)-len(ext)]`.
A name without a dot has extension `""`. -/
def splitExtension (filename : String) : String × String :=
  match filename.toList.reverse.span (fun c => c != '.') with
  | (_, []) => (filename, "")
  | (sufRev, _ :: preRev) => (⟨preRev.reverse⟩, ⟨'.' :: sufRev.reverse⟩)

/-- The conflict file name `ConflictHandler.resolveKeepBoth` computes:
`fmt.Sprintf("%s_conflict_local_%s%s", nameWithoutExt, timestamp, ext)`. -/
def conflictName (path timestamp : String) : String :=
  let filename := filepathBase path
  let pair := splitExtension filename
  pair.1 ++ "_conflict_local_" ++ timestamp ++ pair.2

/-- Go `ConflictHandler.resolveKeepBoth`.  The Go function computes a conflict
name for the local copy, but only logs it; the returned operation is a plain
download of the remote file to the original path.  `time.Now()` is passed in
as the `timestamp` argument. -/
def resolveKeepBoth (path : String) (localFile remoteFile : FileMetadata)
    (timestamp : String) : SyncOperation :=
  let _conflictName := conflictName path timestamp
  { type := .download, localPath := path, remotePath := path,
    fileSize := remoteFile.size, priority := 0, metadata := some remoteFile }

/-- Go `ConflictHandler.resolveManual`: emits an `OperationConflict` carrying the
local metadata and `FileSize: 0`. -/
def resolveManual (path : String) (localFile remoteFile : FileMetadata) :
    SyncOperation :=
  { type := .conflict, localPath := path, remotePath := path,
    fileSize := 0, priority := 0, metadata := some localFile }

/-- Go `ConflictHandler.ResolveConflict`: dispatches on the configured strategy;
any value that is none of the four constants falls into the `default` branch
and yields `SyncOperation{Type: OperationSkip}`. -/
def resolveConflict (strategy : ℤ) (path : String)
    (localFile remoteFile : FileMetadata) (timestamp : String) : SyncOperation :=
  if strategy = resolutionNewest then resolveByNewest path localFile remoteFile
  else if strategy = resolutionLargest then resolveByLargest path localFile remoteFile
  else if strategy = resolutionKeepBoth then resolveKeepBoth path localFile remoteFile timestamp
  else if strategy = resolutionManual then resolveManual path localFile remoteFile
  else skipOp

/-- Go `EnhancedSyncEngine.determineSyncOperation`: local-only files upload
(unless download-only), remote-only files download (unless upload-only);
when both sides exist, identical checksums short-circuit to a skip and
differing checksums go to the conflict handler. -/
def determineSyncOperation (strategy conflictStrategy : ℤ) (path : String)
    (localFile remoteFile : Option FileMetadata) (timestamp : String) :
    SyncOperation :=
  match localFile, remoteFile with
  | some lf, none =>
    if strategy = strategyDownloadOnly then skipOp
    else
      { type := .upload, localPath := path, remotePath := path,
        fileSize := lf.size, priority := 0, metadata := some lf }
  | none, some rf =>
    if strategy = strategyUploadOnly then skipOp
    else
      { type := .download, localPath := path, remotePath := path,
        fileSize := rf.size, priority := 0, metadata := some rf }
  | some lf, some rf =>
    if lf.checksum = rf.checksum then skipOp
    else resolveConflict conflictStrategy path lf rf timestamp
  | none, none => skipOp

/-- Error taxonomy from `sync_test.go` (`ErrorType`, iota order). -/
inductive ErrorType where
  | network
  | auth
  | permission
  | quota
  | conflict
  | validation
  | timeout
  | unknown
deriving DecidableEq, Repr

/-- Abstraction of a Go `error` cause.  The retry classifier only ever asks
two questions of the cause — `isNetworkError(cause)` and
`isTemporaryError(cause)` — so a cause is modelled by those two answers.
A nil cause is `none` at use sites. -/
structure Cause where
  isNetError : Bool
  isTempError : Bool
deriving DecidableEq, Repr

/-- Go `isRetryable` from `sync_test.go`: network/timeout/conflict retry, quota,
auth, permission and validation do not; the `default` branch (reached only
for `ErrorTypeUnknown`) consults the cause's network/temporary predicates. -/
def isRetryable (errType : ErrorType) (cause : Option Cause) : Bool :=
  match errType with
  | .network => true
  | .timeout => true
  | .quota => false
  | .auth => false
  | .permission => false
  | .validation => false
  | .conflict => true
  | .unknown =>
    match cause with
    | some c => c.isNetError || c.isTempError
    | none => false

/-- Go `SyncError` from `sync_test.go`.  The wall-clock `Timestamp` field is
dropped (never consulted by the retry machinery). -/
structure SyncError where
  type : ErrorType
  message : String
  operation : String
  filePath : String
  cause : Option Cause
  retryable : Bool
deriving DecidableEq, Repr

/-- Go `NewSyncError`: builds a `SyncError` with `Retryable` computed by
`isRetryable` and an empty `FilePath`. -/
def newSyncError (errType : ErrorType) (operation message : String)
    (cause : Option Cause) : SyncError :=
  { type := errType, message := message, operation := operation,
    filePath := "", cause := cause, retryable := isRetryable errType cause }

/-- Go `ClassifyHTTPError`: maps HTTP status codes to classified sync errors
(401 auth, 403 permission, 429 quota, 409 conflict, 408/504 timeout,
400 validation, 500/502/503 and any other ≥ 500 network, rest unknown). -/
def classifyHTTPError (statusCode : ℤ) (operation : String)
    (cause : Option Cause) : SyncError :=
  if statusCode = 401 then newSyncError .auth operation "Authentication failed" cause
  else if statusCode = 403 then newSyncError .permission operation "Permission denied" cause
  else if statusCode = 429 then newSyncError .quota operation "Rate limit exceeded" cause
  else if statusCode = 409 then newSyncError .conflict operation "Conflict detected" cause
  else if statusCode = 408 ∨ statusCode = 504 then
    newSyncError .timeout operation "Request timeout" cause
  else if statusCode = 400 then newSyncError .validation operation "Invalid request" cause
  else if statusCode = 500 ∨ statusCode = 502 ∨ statusCode = 503 then
    newSyncError .network operation "Server error" cause
  else if 500 ≤ statusCode then
    newSyncError .network operation ("Server error: " ++ toString statusCode) cause
  else newSyncError .unknown operation ("HTTP error: " ++ toString statusCode) cause

/-- Go `RetryConfig` from `sync_test.go`.  Durations (`time.Duration`, int64
nanoseconds in Go) and the float64 backoff factor are modelled as rationals;
`MaxAttempts` as ℤ. -/
structure RetryConfig where
  maxAttempts : ℤ
  initialDelay : ℚ
  maxDelay : ℚ
  backoffFactor : ℚ
  retryableTypes : List ErrorType
deriving DecidableEq, Repr

/-- Go `DefaultRetryConfig`: 3 attempts, 1s initial delay, 30s max delay,
factor 2.0, retryable set {network, timeout, conflict}.  Delays are in
nanoseconds as in Go's `time.Duration`. -/
def defaultRetryConfig : RetryConfig :=
  { maxAttempts := 3, initialDelay := 1000000000, maxDelay := 30000000000,
    backoffFactor := 2, retryableTypes := [.network, .timeout, .conflict] }

/-- Go `RetryConfig.ShouldRetry`: no retry at or past `MaxAttempts`, no retry
when the error is not marked retryable, otherwise retry exactly when the
error's type occurs in `RetryableTypes`. -/
def shouldRetry (rc : RetryConfig) (err : SyncError) (attempt : ℤ) : Bool :=
  if rc.maxAttempts ≤ attempt then false
  else if !err.retryable then false
  else rc.retryableTypes.contains err.type

/-- The iterative `pow` helper from `sync_test.go`: multiplies 1.0 by `base`,
`int(exp)` times (zero times for a non-positive exponent). -/
def pow (base : ℚ) (exp : ℤ) : ℚ :=
  (List.range exp.toNat).foldl (fun result _ => result * base) 1

/-- Go `RetryConfig.GetDelay`: `InitialDelay × BackoffFactor^attempt`, capped at
`MaxDelay`. -/
def getDelay (rc : RetryConfig) (attempt : ℤ) : ℚ :=
  let delay := rc.initialDelay * pow rc.backoffFactor attempt
  if rc.maxDelay < delay then rc.maxDelay else delay

/-- Go `ErrorRecovery.HandleError`: `(false, 0)` when `ShouldRetry` declines;
otherwise the `GetDelay` backoff, multiplied by 5 for quota errors and
halved for conflict errors. -/
def handleError (rc : RetryConfig) (err : SyncError) (attempt : ℤ) :
    Bool × ℚ :=
  if !(shouldRetry rc err attempt) then (false, 0)
  else
    let delay := getDelay rc attempt
    let delay :=
      match err.type with
      | .quota => delay * 5
      | .conflict => delay / 2
      | _ => delay
    (true, delay)

/-- Persisted file row, `pkg/types.FileMetadata` as read back by the database
layer (`ID` is scanned from an integer column). -/
structure FileEntry where
  id : ℤ
  path : String
  remoteID : String
  size : ℤ
  modifiedTime : ℤ
  hash : String
  isDirectory : Bool
  syncStatus : String
deriving DecidableEq, Repr

/-- The `sync_status IN ('pending','conflict','error')` predicate of the SQL
query in `Database.GetPendingFiles`. -/
def pendingStatus (s : String) : Bool :=
  s = "pending" || s = "conflict" || s = "error"

/-- Comparison realising `ORDER BY modified_time DESC`. -/
def byModifiedDesc (a b : FileEntry) : Bool :=
  b.modifiedTime ≤ a.modifiedTime

/-- Model of `Database.GetPendingFiles` over a table of rows: the SQL
`SELECT … WHERE sync_status IN ('pending','conflict','error') ORDER BY
modified_time DESC` is the filter of the rows by status, sorted by
`modified_time` descending. -/
def getPendingFiles (rows : List FileEntry) : List FileEntry :=
  (rows.filter (fun e => pendingStatus e.syncStatus)).mergeSort byModifiedDesc

/-- Rate limiter state (`rate_limiter.go` `RateLimiter`): a token bucket whose
capacity and refill rate both equal `bytesPerSecond`.  `lastUpdate` is
wall-clock time in seconds, as a rational. -/
structure RateLimiter where
  bytesPerSecond : ℤ
  bucket : ℤ
  lastUpdate : ℚ
deriving DecidableEq, Repr

/-- Go `NewRateLimiter`: the bucket starts full (at `bytesPerSecond`);
`lastUpdate` starts at the creation instant, taken as time 0. -/
def newRateLimiter (bytesPerSecond : ℤ) : RateLimiter :=
  { bytesPerSecond := bytesPerSecond, bucket := bytesPerSecond, lastUpdate := 0 }

/-- Go's `int64(x)` float-to-integer conversion truncates toward zero. -/
def truncToInt (q : ℚ) : ℤ :=
  if q < 0 then ⌈q⌉ else ⌊q⌋

/-- Go `RateLimiter.WaitForCapacity` at wall-clock instant `now`: a no-op when
rate limiting is disabled; otherwise refills the bucket by
`int64(elapsed.Seconds() * float64(bytesPerSecond))`, caps it at
`bytesPerSecond`, and resets `lastUpdate`.  Despite its name it never waits:
it always returns nil immediately. -/
def waitForCapacity (rl : RateLimiter) (now : ℚ) : RateLimiter :=
  if rl.bytesPerSecond ≤ 0 then rl
  else
    let tokensToAdd : ℤ := truncToInt ((now - rl.lastUpdate) * rl.bytesPerSecond)
    let bucket := rl.bucket + tokensToAdd
    let bucket := if rl.bytesPerSecond < bucket then rl.bytesPerSecond else bucket
    { rl with bucket := bucket, lastUpdate := now }

/-- Go `RateLimiter.ConsumeCapacity`: debits the bucket, floored at zero; a no-op
when rate limiting is disabled.  It never blocks and never rejects. -/
def consumeCapacity (rl : RateLimiter) (bytes : ℤ) : RateLimiter :=
  if rl.bytesPerSecond ≤ 0 then rl
  else
    let bucket := rl.bucket - bytes
    { rl with bucket := if bucket < 0 then 0 else bucket }

/-- One interaction with the rate limiter: a `WaitForCapacity` call at a given
instant, or a `ConsumeCapacity` call for a given byte count. -/
inductive RLEvent where
  | wait (now : ℚ)
  | consume (bytes : ℤ)
deriving DecidableEq, Repr

/-- Applies one event to the limiter state. -/
def rlStep (rl : RateLimiter) : RLEvent → RateLimiter
  | .wait now => waitForCapacity rl now
  | .consume bytes => consumeCapacity rl bytes

/-- Runs a trace of events from a state. -/
def rlRun (rl : RateLimiter) (evs : List RLEvent) : RateLimiter :=
  evs.foldl rlStep rl

/-- Total bytes requested through `ConsumeCapacity` along a trace.  Requests
are never refused, so this is the number of bytes the callers transfer. -/
def requestedBytes : List RLEvent → ℤ
  | [] => 0
  | .wait _ :: evs => requestedBytes evs
  | .consume b :: evs => b + requestedBytes evs

/-- Total bytes actually debited from the bucket along a trace (a consume of
`b` bytes debits `min b bucket` when `b ≥ 0`). -/
def debitedBytes (rl : RateLimiter) : List RLEvent → ℤ
  | [] => 0
  | .wait now :: evs => debitedBytes (waitForCapacity rl now) evs
  | .consume b :: evs =>
    (rl.bucket - (consumeCapacity rl b).bucket) +
      debitedBytes (consumeCapacity rl b) evs

/-- All `wait` instants of the trace lie in the window `[lo, hi]`. -/
def waitsWithin (lo hi : ℚ) : List RLEvent → Prop
  | [] => True
  | .wait now :: evs => (lo ≤ now ∧ now ≤ hi) ∧ waitsWithin lo hi evs
  | .consume _ :: evs => waitsWithin lo hi evs

/-- The `wait` instants are nondecreasing, starting from reference time `t`
(wall clocks are monotone; Go's `time.Since` differences are nonnegative). -/
def nowsMonotone (t : ℚ) : List RLEvent → Prop
  | [] => True
  | .wait now :: evs => t ≤ now ∧ nowsMonotone now evs
  | .consume _ :: evs => nowsMonotone t evs

/-- Every `consume` of the trace requests a nonnegative byte count (callers
pass actual transfer sizes). -/
def consumesNonneg : List RLEvent → Prop
  | [] => True
  | .wait _ :: evs => consumesNonneg evs
  | .consume b :: evs => 0 ≤ b ∧ consumesNonneg evs

/-! ### Concrete test data -/

/-- Local side of the divergent `budget.xlsx`: size 100, modified at time 10,
checksum `"aa"`. -/
def budgetLocal : FileMetadata :=
  { path := "budget.xlsx", size := 100, modTime := 10, checksum := "aa",
    isDirectory := false, localExists := true, remoteExists := true }

/-- Remote side of the divergent `budget.xlsx`: same size 100, strictly older
(time 5), checksum `"bb"`. -/
def budgetRemote : FileMetadata :=
  { path := "budget.xlsx", size := 100, modTime := 5, checksum := "bb",
    isDirectory := false, localExists := true, remoteExists := true }

/-- A remote copy sharing `budgetLocal`'s checksum but with different size and
modification time. -/
def budgetRemoteSameHash : FileMetadata :=
  { path := "budget.xlsx", size := 250, modTime := 99, checksum := "aa",
    isDirectory := false, localExists := true, remoteExists := true }

/-! ### C6: newest strategy -/

/-- C6: under the `newest` strategy, `resolveByNewest` returns an upload
exactly when the local copy's `modTime` is strictly newer, and a download
exactly when the remote is at least as new — in particular on an exact tie
the remote wins and the result is a download. -/
theorem resolveByNewest_upload_iff_strictly_newer
    (path : String) (lf rf : FileMetadata) :
    ((resolveByNewest path lf rf).type = OperationType.upload ↔
      rf.modTime < lf.modTime) ∧
    ((resolveByNewest path lf rf).type = OperationType.download ↔
      lf.modTime ≤ rf.modTime) := by
  unfold resolveByNewest
  by_cases h : rf.modTime < lf.modTime <;> simp [h] <;> omega

/-- Instance of C6 at concrete data: remote (time 99) at least as new as
local (time 10), hence a download. -/
theorem resolveByNewest_upload_iff_strictly_newer_witness :
    ((resolveByNewest "budget.xlsx" budgetLocal budgetRemoteSameHash).type =
        OperationType.upload ↔
      budgetRemoteSameHash.modTime < budgetLocal.modTime) ∧
    ((resolveByNewest "budget.xlsx" budgetLocal budgetRemoteSameHash).type =
        OperationType.download ↔
      budgetLocal.modTime ≤ budgetRemoteSameHash.modTime) :=
  resolveByNewest_upload_iff_strictly_newer "budget.xlsx" budgetLocal
    budgetRemoteSameHash

/-! ### C2: largest strategy, size tie -/

/-- C2 counterexample: with equal sizes and the local copy strictly newer,
`resolveByLargest` returns a download — it does not fall through to the
newest strategy, which would upload here. -/
theorem resolveByLargest_tie_counterexample :
    budgetLocal.size = budgetRemote.size ∧
    budgetRemote.modTime < budgetLocal.modTime ∧
    (resolveByLargest "budget.xlsx" budgetLocal budgetRemote).type =
      OperationType.download := by
  decide

/-- C2 amended: when `localView.size = remoteView.size`, `resolveByLargest`
returns the download of the remote copy unconditionally, regardless of
either side's `modTime`. -/
theorem resolveByLargest_tie_downloads_remote (path : String)
    (lf rf : FileMetadata) (h : lf.size = rf.size) :
    resolveByLargest path lf rf =
      { type := .download, localPath := path, remotePath := path,
        fileSize := rf.size, priority := 0, metadata := some rf } := by
  unfold resolveByLargest
  rw [h]
  simp

/-- Instance of the amended C2 at concrete data with equal sizes. -/
theorem resolveByLargest_tie_downloads_remote_witness :
    budgetLocal.size = budgetRemote.size ∧
    resolveByLargest "budget.xlsx" budgetLocal budgetRemote =
      { type := .download, localPath := "budget.xlsx",
        remotePath := "budget.xlsx", fileSize := budgetRemote.size,
        priority := 0, metadata := some budgetRemote } :=
  ⟨by decide,
    resolveByLargest_tie_downloads_remote "budget.xlsx" budgetLocal budgetRemote
      (by decide)⟩

/-! ### C3: keep-both strategy -/

/-- C3 counterexample: for the divergent `budget.xlsx`, the operation
`resolveKeepBoth` returns is a plain download of the remote to the canonical
path — it carries no rename of the local copy (the conflict name is computed
and logged, but is not part of the returned operation, and no other code in
the repository performs the rename). -/
theorem resolveKeepBoth_no_rename_counterexample :
    resolveKeepBoth "budget.xlsx" budgetLocal budgetRemote "20240101_120000" =
      { type := .download, localPath := "budget.xlsx",
        remotePath := "budget.xlsx", fileSize := 100, priority := 0,
        metadata := some budgetRemote } ∧
    conflictName "budget.xlsx" "20240101_120000" =
      "budget_conflict_local_20240101_120000.xlsx" := by
  constructor
  · rfl
  · rfl

/-- C3 amended: `resolveKeepBoth` computes the conflict name
`<name>_conflict_local_<timestamp><ext>` for the local copy but only logs it;
the operation it returns is exactly the download of the remote content to the
canonical path, with no rename component. -/
theorem resolveKeepBoth_downloads_canonical (path ts : String)
    (lf rf : FileMetadata) :
    resolveKeepBoth path lf rf ts =
      { type := .download, localPath := path, remotePath := path,
        fileSize := rf.size, priority := 0, metadata := some rf } ∧
    conflictName "budget.xlsx" ts = "budget_conflict_local_" ++ ts ++ ".xlsx" :=
  ⟨rfl, rfl⟩

/-! ### C10: unrecognised strategy value -/

/-- C10: calling `ResolveConflict` with a strategy value that is none of the
four defined constants falls into the `default` branch and returns the skip
operation — the conflict is dropped without an error or a transfer. -/
theorem resolveConflict_unknown_strategy_skips (strategy : ℤ) (path ts : String)
    (lf rf : FileMetadata)
    (h1 : strategy ≠ resolutionNewest) (h2 : strategy ≠ resolutionLargest)
    (h3 : strategy ≠ resolutionManual) (h4 : strategy ≠ resolutionKeepBoth) :
    resolveConflict strategy path lf rf ts = skipOp := by
  unfold resolveConflict
  simp [h1, h2, h3, h4]

/-- Instance of C10 at the out-of-range strategy value 7. -/
theorem resolveConflict_unknown_strategy_skips_witness :
    resolveConflict 7 "a.txt" budgetLocal budgetRemote "ts" = skipOp :=
  resolveConflict_unknown_strategy_skips 7 "a.txt" "ts" budgetLocal budgetRemote
    (by decide) (by decide) (by decide) (by decide)

/-! ### C8: identical checksums skip -/

/-- C8: when a path exists on both sides and the checksums coincide,
`determineSyncOperation` returns the skip operation with zero bytes to
transfer, for every sync strategy and conflict strategy — the `modTime`
fields are never consulted. -/
theorem determineSyncOperation_identical_checksum_skips
    (strategy conflictStrategy : ℤ) (path ts : String) (lf rf : FileMetadata)
    (h : lf.checksum = rf.checksum) :
    determineSyncOperation strategy conflictStrategy path (some lf) (some rf)
        ts = skipOp ∧
    (determineSyncOperation strategy conflictStrategy path (some lf) (some rf)
        ts).fileSize = 0 := by
  unfold determineSyncOperation
  simp [h, skipOp]

/-- Instance of C8 at concrete data whose `modTime` (10 vs 99) and size
(100 vs 250) differ while the checksums agree. -/
theorem determineSyncOperation_identical_checksum_skips_witness :
    budgetLocal.checksum = budgetRemoteSameHash.checksum ∧
    budgetLocal.modTime ≠ budgetRemoteSameHash.modTime ∧
    (determineSyncOperation 0 0 "budget.xlsx" (some budgetLocal)
        (some budgetRemoteSameHash) "ts" = skipOp ∧
      (determineSyncOperation 0 0 "budget.xlsx" (some budgetLocal)
        (some budgetRemoteSameHash) "ts").fileSize = 0) :=
  ⟨by decide, by decide,
    determineSyncOperation_identical_checksum_skips 0 0 "budget.xlsx" "ts"
      budgetLocal budgetRemoteSameHash (by decide)⟩

/-! ### C7: backoff formula -/

/-- The multiply-accumulate loop over `List.range` computes the power. -/
theorem foldl_range_mul (b : ℚ) (n : ℕ) :
    (List.range n).foldl (fun result _ => result * b) 1 = b ^ n := by
  induction n with
  | zero => simp
  | succ k ih =>
    rw [List.range_succ, List.foldl_append, ih, List.foldl_cons, List.foldl_nil,
      pow_succ]

/-- The iterative `pow` of the source agrees with the monoid power on
natural-number exponents. -/
theorem pow_eq_monoid_pow (b : ℚ) (n : ℕ) : pow b (n : ℤ) = b ^ n := by
  unfold pow
  rw [Int.toNat_natCast]
  exact foldl_range_mul b n

/-- C7: for every configuration with `backoffFactor ≥ 1` and nonnegative
`initialDelay`, `GetDelay` at attempt `n` equals
`min (initialDelay × backoffFactor^n) maxDelay`; the delay is monotone in the
attempt number and never exceeds `maxDelay`. -/
theorem getDelay_min_monotone_capped (rc : RetryConfig) (n : ℕ)
    (hf : 1 ≤ rc.backoffFactor) (hd : 0 ≤ rc.initialDelay) :
    getDelay rc (n : ℤ) =
      min (rc.initialDelay * rc.backoffFactor ^ n) rc.maxDelay ∧
    getDelay rc (n : ℤ) ≤ getDelay rc ((n : ℤ) + 1) ∧
    getDelay rc (n : ℤ) ≤ rc.maxDelay := by
  have hmin : ∀ m : ℕ, getDelay rc (m : ℤ) =
      min (rc.initialDelay * rc.backoffFactor ^ m) rc.maxDelay := by
    intro m
    unfold getDelay
    rw [pow_eq_monoid_pow]
    rcases le_or_lt (rc.initialDelay * rc.backoffFactor ^ m) rc.maxDelay with
      h | h
    · rw [if_neg (not_lt.mpr h), min_eq_left h]
    · rw [if_pos h, min_eq_right h.le]
  have hsucc : ((n + 1 : ℕ) : ℤ) = (n : ℤ) + 1 := by push_cast; ring
  refine ⟨hmin n, ?_, ?_⟩
  · rw [hmin n, ← hsucc, hmin (n + 1)]
    refine min_le_min ?_ le_rfl
    have hpow : rc.backoffFactor ^ n ≤ rc.backoffFactor ^ (n + 1) := by
      have h0 : (0 : ℚ) ≤ rc.backoffFactor ^ n :=
        pow_nonneg (le_trans zero_le_one hf) n
      calc rc.backoffFactor ^ n = rc.backoffFactor ^ n * 1 := by ring
        _ ≤ rc.backoffFactor ^ n * rc.backoffFactor := by
            exact mul_le_mul_of_nonneg_left hf h0
        _ = rc.backoffFactor ^ (n + 1) := by ring
    exact mul_le_mul_of_nonneg_left hpow hd
  · rw [hmin n]
    exact min_le_right _ _

/-- Instance of C7 at the default configuration and attempt 1. -/
theorem getDelay_min_monotone_capped_witness :
    (1 : ℚ) ≤ defaultRetryConfig.backoffFactor ∧
    (0 : ℚ) ≤ defaultRetryConfig.initialDelay ∧
    (getDelay defaultRetryConfig ((1 : ℕ) : ℤ) =
        min (defaultRetryConfig.initialDelay *
          defaultRetryConfig.backoffFactor ^ (1 : ℕ)) defaultRetryConfig.maxDelay ∧
      getDelay defaultRetryConfig ((1 : ℕ) : ℤ) ≤
        getDelay defaultRetryConfig (((1 : ℕ) : ℤ) + 1) ∧
      getDelay defaultRetryConfig ((1 : ℕ) : ℤ) ≤ defaultRetryConfig.maxDelay) :=
  ⟨by norm_num [defaultRetryConfig], by norm_num [defaultRetryConfig],
    getDelay_min_monotone_capped defaultRetryConfig 1
      (by norm_num [defaultRetryConfig]) (by norm_num [defaultRetryConfig])⟩

/-! ### C5: the retryable set -/

/-- C5: under the default configuration, errors built by the classifier with
types auth, permission, validation (and also quota and unknown) are never
retried at any attempt number, while network, timeout and conflict errors are
retried whenever the attempt number is below the cap — the automatically
retried set is exactly {network, timeout, conflict}. -/
theorem defaultRetry_retryable_set (cause : Option Cause) (op msg : String)
    (attempt : ℤ) :
    (∀ t, (t = ErrorType.auth ∨ t = ErrorType.permission ∨
        t = ErrorType.validation ∨ t = ErrorType.quota ∨ t = ErrorType.unknown) →
      shouldRetry defaultRetryConfig (newSyncError t op msg cause) attempt =
        false) ∧
    (attempt < defaultRetryConfig.maxAttempts →
      ∀ t, (t = ErrorType.network ∨ t = ErrorType.timeout ∨
          t = ErrorType.conflict) →
        shouldRetry defaultRetryConfig (newSyncError t op msg cause) attempt =
          true) := by
  constructor
  · rintro t (rfl | rfl | rfl | rfl | rfl) <;>
      rcases cause with _ | c <;>
      simp [shouldRetry, newSyncError, isRetryable, defaultRetryConfig]
  · intro h t ht
    have h3 : ¬ ((3 : ℤ) ≤ attempt) := by
      simp only [defaultRetryConfig] at h; omega
    rcases ht with rfl | rfl | rfl <;>
      simp [shouldRetry, newSyncError, isRetryable, defaultRetryConfig, h3]

/-- Instance of C5: an auth error is refused, a network error at attempt 0 is
retried. -/
theorem defaultRetry_retryable_set_witness :
    shouldRetry defaultRetryConfig (newSyncError .auth "upload" "m" none) 0 =
      false ∧
    shouldRetry defaultRetryConfig (newSyncError .network "upload" "m" none) 0 =
      true :=
  ⟨(defaultRetry_retryable_set none "upload" "m" 0).1 .auth (Or.inl rfl),
    (defaultRetry_retryable_set none "upload" "m" 0).2 (by decide) .network
      (Or.inl rfl)⟩

/-! ### C1: quota failures -/

/-- C1 counterexample: the HTTP 429-classified (quota) failure at attempt 0,
below the default attempt cap, is not retried at all — `HandleError` returns
`(false, 0)`, not a retry with fivefold backoff. -/
theorem quota_not_retried_counterexample :
    (classifyHTTPError 429 "upload" none).type = ErrorType.quota ∧
    (0 : ℤ) < defaultRetryConfig.maxAttempts ∧
    handleError defaultRetryConfig (classifyHTTPError 429 "upload" none) 0 =
      (false, 0) := by
  refine ⟨rfl, by decide, ?_⟩
  rfl

/-- C1 amended: a quota-classified failure built by the error constructor is
never retried under the default configuration (the classifier marks quota
non-retryable and the default retryable set excludes it), so its requeue
delay is 0; the ×5 multiplier takes effect only for an error explicitly
marked retryable under a configuration listing quota, in which case the
delay is 5 × the base backoff for that attempt. -/
theorem quota_retry_behaviour (cause : Option Cause) (op msg : String)
    (attempt : ℤ) :
    handleError defaultRetryConfig (newSyncError .quota op msg cause) attempt =
      (false, 0) ∧
    (∀ (rc : RetryConfig) (err : SyncError), err.type = ErrorType.quota →
      err.retryable = true → ErrorType.quota ∈ rc.retryableTypes →
      attempt < rc.maxAttempts →
      handleError rc err attempt = (true, getDelay rc attempt * 5)) := by
  constructor
  · simp [handleError, shouldRetry, newSyncError, isRetryable,
      defaultRetryConfig]
  · intro rc err h1 h2 h3 h4
    have hsr : shouldRetry rc err attempt = true := by
      simp [shouldRetry, not_le.mpr h4, h2, h1, h3]
    simp [handleError, hsr, h1]

/-- Retry configuration equal to the default except that quota is listed as
retryable; exercises the otherwise-unreachable quota branch of
`HandleError`. -/
def quotaRetryConfig : RetryConfig :=
  { defaultRetryConfig with
    retryableTypes := [.network, .timeout, .conflict, .quota] }

/-- A quota error with the `Retryable` flag forced on (never produced by
`NewSyncError`). -/
def quotaRetryableErr : SyncError :=
  { newSyncError .quota "upload" "Rate limit exceeded" none with
    retryable := true }

/-- Instance of the amended C1: the default machinery refuses the quota error;
the forced-retryable variant gets the fivefold delay. -/
theorem quota_retry_behaviour_witness :
    handleError defaultRetryConfig (newSyncError .quota "upload" "m" none) 0 =
      (false, 0) ∧
    handleError quotaRetryConfig quotaRetryableErr 0 =
      (true, getDelay quotaRetryConfig 0 * 5) :=
  ⟨(quota_retry_behaviour none "upload" "m" 0).1,
    (quota_retry_behaviour none "upload" "m" 0).2 quotaRetryConfig
      quotaRetryableErr rfl rfl (by decide) (by decide)⟩

/-! ### C9: the pending-file query -/

/-- The comparison `byModifiedDesc` is transitive. -/
theorem byModifiedDesc_trans (a b c : FileEntry) (hab : byModifiedDesc a b = true)
    (hbc : byModifiedDesc b c = true) : byModifiedDesc a c = true := by
  simp only [byModifiedDesc, decide_eq_true_eq] at *
  omega

/-- The comparison `byModifiedDesc` is total. -/
theorem byModifiedDesc_total (a b : FileEntry) :
    (byModifiedDesc a b || byModifiedDesc b a) = true := by
  simp only [byModifiedDesc, Bool.or_eq_true, decide_eq_true_eq]
  omega

/-- C9: `GetPendingFiles` returns exactly the stored rows whose sync status is
`pending`, `conflict` or `error` (so rows marked `synced` or `syncing` are
excluded), ordered by `modified_time` with the most recently modified row
first. -/
theorem getPendingFiles_exact_and_sorted (rows : List FileEntry) :
    (∀ e, e ∈ getPendingFiles rows ↔
      e ∈ rows ∧ (e.syncStatus = "pending" ∨ e.syncStatus = "conflict" ∨
        e.syncStatus = "error")) ∧
    List.Pairwise (fun a b => b.modifiedTime ≤ a.modifiedTime)
      (getPendingFiles rows) := by
  constructor
  · intro e
    unfold getPendingFiles
    rw [(List.mergeSort_perm _ _).mem_iff, List.mem_filter]
    simp [pendingStatus, or_assoc]
  · have hs := List.sorted_mergeSort byModifiedDesc_trans byModifiedDesc_total
      (rows.filter fun e => pendingStatus e.syncStatus)
    unfold getPendingFiles
    exact hs.imp (fun h => by
      simpa [byModifiedDesc, decide_eq_true_eq] using h)

/-! ### C4: rate limiter window bound -/

/-- Truncation toward zero of a nonnegative rational is its floor: nonnegative
and at most the rational itself. -/
theorem truncToInt_nonneg_le (q : ℚ) (h : 0 ≤ q) :
    0 ≤ truncToInt q ∧ (truncToInt q : ℚ) ≤ q := by
  unfold truncToInt
  rw [if_neg (not_lt.mpr h)]
  exact ⟨Int.floor_nonneg.mpr h, Int.floor_le q⟩

/-- Bucket component of an enabled `WaitForCapacity` call. -/
theorem waitForCapacity_bucket (rl : RateLimiter) (now : ℚ)
    (h : 0 < rl.bytesPerSecond) :
    (waitForCapacity rl now).bucket =
      if rl.bytesPerSecond <
          rl.bucket + truncToInt ((now - rl.lastUpdate) * (rl.bytesPerSecond : ℚ))
        then rl.bytesPerSecond
        else rl.bucket +
          truncToInt ((now - rl.lastUpdate) * (rl.bytesPerSecond : ℚ)) := by
  unfold waitForCapacity
  rw [if_neg (not_le.mpr h)]

/-- Go `WaitForCapacity` resets `lastUpdate` to the call instant. -/
theorem waitForCapacity_lastUpdate (rl : RateLimiter) (now : ℚ)
    (h : 0 < rl.bytesPerSecond) :
    (waitForCapacity rl now).lastUpdate = now := by
  unfold waitForCapacity
  rw [if_neg (not_le.mpr h)]

/-- Go `WaitForCapacity` leaves the configured rate unchanged. -/
theorem waitForCapacity_bytesPerSecond (rl : RateLimiter) (now : ℚ) :
    (waitForCapacity rl now).bytesPerSecond = rl.bytesPerSecond := by
  unfold waitForCapacity
  split_ifs <;> rfl

/-- Bucket component of an enabled `ConsumeCapacity` call. -/
theorem consumeCapacity_bucket (rl : RateLimiter) (b : ℤ)
    (h : 0 < rl.bytesPerSecond) :
    (consumeCapacity rl b).bucket =
      if rl.bucket - b < 0 then 0 else rl.bucket - b := by
  unfold consumeCapacity
  rw [if_neg (not_le.mpr h)]

/-- Go `ConsumeCapacity` leaves `lastUpdate` unchanged. -/
theorem consumeCapacity_lastUpdate (rl : RateLimiter) (b : ℤ) :
    (consumeCapacity rl b).lastUpdate = rl.lastUpdate := by
  unfold consumeCapacity
  split_ifs <;> rfl

/-- Go `ConsumeCapacity` leaves the configured rate unchanged. -/
theorem consumeCapacity_bytesPerSecond (rl : RateLimiter) (b : ℤ) :
    (consumeCapacity rl b).bytesPerSecond = rl.bytesPerSecond := by
  unfold consumeCapacity
  split_ifs <;> rfl

/-- Pre-window slack: a state whose `lastUpdate` predates the window start can
materialise up to one extra bucketful at its first in-window refill. -/
def rlSlack (lo lu : ℚ) (B : ℤ) : ℚ :=
  if lu < lo then (B : ℚ) else 0

/-- Invariant for the window bound: along any trace whose `wait` instants lie
in `[lo, hi]` and are monotone, the bytes debited from the bucket are bounded
by the current bucket level, plus one bucketful of pre-window slack, plus the
refill the remaining window can produce. -/
theorem debitedBytes_invariant (B : ℤ) (hB : 0 < B) (lo hi : ℚ)
    (evs : List RLEvent) (rl : RateLimiter) (hBps : rl.bytesPerSecond = B)
    (h0 : 0 ≤ rl.bucket) (h1 : rl.bucket ≤ B)
    (hmono : nowsMonotone rl.lastUpdate evs)
    (hwin : waitsWithin lo hi evs)
    (hcons : consumesNonneg evs) :
    (debitedBytes rl evs : ℚ) ≤
      (rl.bucket : ℚ) + rlSlack lo rl.lastUpdate B +
        (B : ℚ) * max 0 (hi - max rl.lastUpdate lo) := by
  induction evs generalizing rl with
  | nil =>
    have hb : (0 : ℚ) ≤ (rl.bucket : ℚ) := by exact_mod_cast h0
    have hBQ : (0 : ℚ) ≤ (B : ℚ) := by exact_mod_cast hB.le
    have hs : 0 ≤ rlSlack lo rl.lastUpdate B := by
      unfold rlSlack; split_ifs
      · exact hBQ
      · exact le_rfl
    have hm : 0 ≤ (B : ℚ) * max 0 (hi - max rl.lastUpdate lo) :=
      mul_nonneg hBQ (le_max_left 0 _)
    simp only [debitedBytes, Int.cast_zero]
    linarith
  | cons e evs ih =>
    cases e with
    | wait now =>
      simp only [waitsWithin] at hwin
      simp only [nowsMonotone] at hmono
      obtain ⟨⟨hlonow, hnowhi⟩, hwin'⟩ := hwin
      obtain ⟨hlunow, hmono'⟩ := hmono
      have hpos : 0 < rl.bytesPerSecond := by omega
      have hBQ : (0 : ℚ) ≤ (B : ℚ) := by exact_mod_cast hB.le
      have hq : 0 ≤ (now - rl.lastUpdate) * (rl.bytesPerSecond : ℚ) := by
        have hc : (0 : ℚ) ≤ (rl.bytesPerSecond : ℚ) := by exact_mod_cast hpos.le
        have h2 : 0 ≤ now - rl.lastUpdate := by linarith
        exact mul_nonneg h2 hc
      obtain ⟨htok0, htokle⟩ := truncToInt_nonneg_le _ hq
      have hbucket := waitForCapacity_bucket rl now hpos
      have hlu' := waitForCapacity_lastUpdate rl now hpos
      have hbps' := waitForCapacity_bytesPerSecond rl now
      have hb0' : 0 ≤ (waitForCapacity rl now).bucket := by
        rw [hbucket]; split_ifs with hc
        · omega
        · omega
      have hb1' : (waitForCapacity rl now).bucket ≤ B := by
        rw [hbucket]; split_ifs with hc
        · omega
        · omega
      have ihx := ih (waitForCapacity rl now) (by rw [hbps', hBps]) hb0' hb1'
        (by rw [hlu']; exact hmono') hwin' hcons
      rw [hlu'] at ihx
      have hsl : rlSlack lo now B = 0 := by
        unfold rlSlack; rw [if_neg (not_lt.mpr hlonow)]
      have hmx : max now lo = now := max_eq_left hlonow
      have hmx0 : max 0 (hi - now) = hi - now :=
        max_eq_right (by linarith)
      rw [hsl, hmx, hmx0] at ihx
      simp only [debitedBytes]
      -- bound the refilled bucket by the elapsed-time refill
      have htokleB : (truncToInt ((now - rl.lastUpdate) * (B : ℚ)) : ℚ) ≤
          (now - rl.lastUpdate) * (B : ℚ) := by
        rw [← hBps]; exact htokle
      have hkey : ((waitForCapacity rl now).bucket : ℚ) ≤
          (rl.bucket : ℚ) + (B : ℚ) * (now - rl.lastUpdate) := by
        rw [hbucket, hBps]
        split_ifs with hc
        · have hc' : (B : ℚ) < (rl.bucket : ℚ) +
              (truncToInt ((now - rl.lastUpdate) * (B : ℚ)) : ℚ) := by
            exact_mod_cast hc
          linarith [htokleB]
        · push_cast
          linarith [htokleB]
      rcases lt_or_le rl.lastUpdate lo with hcase | hcase
      · have hsl2 : rlSlack lo rl.lastUpdate B = (B : ℚ) := by
          unfold rlSlack; rw [if_pos hcase]
        have hmx2 : max rl.lastUpdate lo = lo := max_eq_right hcase.le
        have hmx02 : max 0 (hi - lo) = hi - lo := max_eq_right (by linarith)
        rw [hsl2, hmx2, hmx02]
        have hb1Q : ((waitForCapacity rl now).bucket : ℚ) ≤ (B : ℚ) := by
          exact_mod_cast hb1'
        have hmul : (B : ℚ) * (hi - now) ≤ (B : ℚ) * (hi - lo) :=
          mul_le_mul_of_nonneg_left (by linarith) hBQ
        have hbQ : (0 : ℚ) ≤ (rl.bucket : ℚ) := by exact_mod_cast h0
        nlinarith [ihx]
      · have hsl2 : rlSlack lo rl.lastUpdate B = 0 := by
          unfold rlSlack; rw [if_neg (not_lt.mpr hcase)]
        have hmx2 : max rl.lastUpdate lo = rl.lastUpdate := max_eq_left hcase
        have hmx02 : max 0 (hi - rl.lastUpdate) = hi - rl.lastUpdate :=
          max_eq_right (by linarith)
        rw [hsl2, hmx2, hmx02]
        nlinarith [ihx, hkey]
    | consume b =>
      simp only [waitsWithin] at hwin
      simp only [nowsMonotone] at hmono
      simp only [consumesNonneg] at hcons
      obtain ⟨hb, hcons'⟩ := hcons
      have hpos : 0 < rl.bytesPerSecond := by omega
      have hbkt := consumeCapacity_bucket rl b hpos
      have hlu' := consumeCapacity_lastUpdate rl b
      have hbps' := consumeCapacity_bytesPerSecond rl b
      have hb0' : 0 ≤ (consumeCapacity rl b).bucket := by
        rw [hbkt]; split_ifs with hc
        · omega
        · omega
      have hb1' : (consumeCapacity rl b).bucket ≤ B := by
        rw [hbkt]; split_ifs with hc
        · omega
        · omega
      have ihx := ih (consumeCapacity rl b) (by rw [hbps', hBps]) hb0' hb1'
        (by rw [hlu']; exact hmono) hwin hcons'
      rw [hlu'] at ihx
      simp only [debitedBytes]
      push_cast
      linarith

/-- C4 amended: with `bytesPerSecond = B > 0` and a well-formed starting state
(bucket within `[0, B]`), the bytes actually debited from the bucket over any
trace whose refill instants lie in a window `[lo, hi]` never exceed
`2·capacity + bytesPerSecond × (hi - lo)` (capacity = `B`; the extra
bucketful relative to the spec's `capacity + B·T` comes from the lazy refill
materialising pre-window accrual at the first in-window `WaitForCapacity`).
The raw bytes requested through `ConsumeCapacity` are unbounded, since
neither call ever blocks or refuses. -/
theorem rateLimiter_window_debited_bound (B : ℤ) (rl : RateLimiter)
    (evs : List RLEvent) (lo hi : ℚ)
    (hB : 0 < B) (hBps : rl.bytesPerSecond = B)
    (h0 : 0 ≤ rl.bucket) (h1 : rl.bucket ≤ B)
    (hT : lo ≤ hi)
    (hmono : nowsMonotone rl.lastUpdate evs)
    (hwin : waitsWithin lo hi evs)
    (hcons : consumesNonneg evs) :
    (debitedBytes rl evs : ℚ) ≤ 2 * (B : ℚ) + (B : ℚ) * (hi - lo) := by
  have h := debitedBytes_invariant B hB lo hi evs rl hBps h0 h1 hmono hwin hcons
  have hBQ : (0 : ℚ) ≤ (B : ℚ) := by exact_mod_cast hB.le
  have hb1Q : (rl.bucket : ℚ) ≤ (B : ℚ) := by exact_mod_cast h1
  have hsl : rlSlack lo rl.lastUpdate B ≤ (B : ℚ) := by
    unfold rlSlack; split_ifs
    · exact le_rfl
    · exact hBQ
  have hmaxlo : lo ≤ max rl.lastUpdate lo := le_max_right _ _
  have hmx : max 0 (hi - max rl.lastUpdate lo) ≤ hi - lo := by
    apply max_le (by linarith) (by linarith)
  have hmul : (B : ℚ) * max 0 (hi - max rl.lastUpdate lo) ≤
      (B : ℚ) * (hi - lo) := mul_le_mul_of_nonneg_left hmx hBQ
  linarith

/-- Instance of the amended C4: limiter with 10 bytes/s, one refill at t = 1
inside the window `[0, 1]`, one consume of 5 bytes. -/
theorem rateLimiter_window_debited_bound_witness :
    (debitedBytes (newRateLimiter 10)
        [RLEvent.wait 1, RLEvent.consume 5] : ℚ) ≤
      2 * ((10 : ℤ) : ℚ) + ((10 : ℤ) : ℚ) * (1 - 0) :=
  rateLimiter_window_debited_bound 10 (newRateLimiter 10)
    [RLEvent.wait 1, RLEvent.consume 5] 0 1 (by norm_num) rfl
    (by norm_num [newRateLimiter]) (by norm_num [newRateLimiter])
    (by norm_num)
    (by norm_num [nowsMonotone, newRateLimiter])
    (by norm_num [waitsWithin])
    (by norm_num [consumesNonneg])

/-- C4 counterexample: `ConsumeCapacity` never blocks or refuses, so a trace
can consume 30 bytes within a window of duration 0 against capacity 10,
exceeding the claimed bound `capacity + bytesPerSecond × T = 10`; moreover
even the bytes actually debited can reach 20 > 10 in a zero-length window,
because the lazy refill materialises pre-window accrual. -/
theorem rateLimiter_bound_counterexample :
    requestedBytes [RLEvent.consume 30] = 30 ∧
    (newRateLimiter 10).bucket + (newRateLimiter 10).bytesPerSecond * 0 < 30 ∧
    (rlRun (newRateLimiter 10) [RLEvent.consume 30]).bucket = 0 ∧
    debitedBytes (newRateLimiter 10)
      [RLEvent.consume 10, RLEvent.wait 100, RLEvent.consume 10] = 20 ∧
    waitsWithin 100 100
      [RLEvent.consume 10, RLEvent.wait 100, RLEvent.consume 10] := by
  refine ⟨rfl, by decide, rfl, ?_, ?_⟩
  · norm_num [debitedBytes, consumeCapacity, waitForCapacity, newRateLimiter,
      truncToInt]
  · simp only [waitsWithin]
    norm_num

end ZohoSync
